import Mathlib

/-!
Verification development for the RAG (retrieval-augmented) indexing and
search subsystem of DataForge-Reader (`src/backend/routers/rag.py`).

Modelling conventions (shallow embedding):
* Python floats are modelled as exact rationals (`ℚ`); the literal `0.01`
  of the source becomes `1/100`.  Python's float `%` operator (sign of the
  divisor, `x % m = x - m * floor (x / m)` for finite operands) is `pymod`.
* Python's arbitrary-precision `int` is `Int` / `ℕ`.
* The process-global dict `rag_index` becomes the explicit state record
  `RagState`, threaded through every operation.
* Python `dict` objects with string keys are association lists in insertion
  order (Python dicts preserve insertion order); the `set` of indexed
  dataset ids is a `Finset String` (Python sets are unordered, no
  duplicates).
* Free-form JSON metadata values are modelled by `MetaV` (integers,
  strings, and one level of string-to-string mapping, which covers every
  value the router stores in a document's metadata).
* File-system and HTTP plumbing is external input/output: operations take
  the already-loaded file contents as arguments and return `Except` values
  whose `.error` branch corresponds to the raised `HTTPException`.
* `datetime.now().isoformat()` and `time.time()` are passed in as explicit
  timestamp arguments.
-/

/-- A metadata value stored in a RAG document (`dict` values in the source:
integers, strings, or the flat string mapping used for annotations). -/
inductive MetaV where
  | i : Int → MetaV
  | s : String → MetaV
  | o : List (String × String) → MetaV
deriving DecidableEq, Repr

/-- Python `str(...)` rendering of a metadata value (used by the f-string
`f"(Page {...})"`).  The mapping case renders with literal braces like a
Python dict; no code path of the claims reaches it. -/
def metaToString : MetaV → String
  | .i n => toString n
  | .s v => v
  | .o _ => "\x7b...\x7d"

/-- `RAGDocument` of the source (`class RAGDocument(BaseModel)`). -/
structure RAGDocument where
  id : String
  datasetId : String
  datasetName : String
  fullText : String
  prompt : String
  completion : String
  intent : String
  category : String
  rowIndex : Int
  metadata : List (String × MetaV)
deriving DecidableEq, Repr

/-- The `stats` sub-dictionary of `rag_index`. -/
structure RagStats where
  total_documents : Int
  indexed_datasets : Int
  last_updated : Option String
deriving DecidableEq, Repr

/-- The process-global `rag_index` dictionary. -/
structure RagState where
  documents : List RAGDocument
  embeddings : List (String × List ℚ)
  indexed_datasets : Finset String
  stats : RagStats
deriving DecidableEq

/-- Initial value of `rag_index` (before `load_rag_index()` runs). -/
def rag_index_init : RagState :=
  { documents := []
    embeddings := []
    indexed_datasets := ∅
    stats := { total_documents := 0, indexed_datasets := 0, last_updated := none } }

/-- Association-list lookup, modelling Python `dict` access on the
insertion-ordered key/value lists used in this development. -/
def alookup {β : Type} (a : String) : List (String × β) → Option β
  | [] => none
  | (k, v) :: rest => if k = a then some v else alookup a rest

theorem alookup_mem {β : Type} {a : String} {v : β} :
    ∀ {l : List (String × β)}, alookup a l = some v → ∃ k, (k, v) ∈ l := by
  intro l
  induction l with
  | nil => intro h; simp [alookup] at h
  | cons kv rest ih =>
    intro h
    obtain ⟨k, w⟩ := kv
    simp only [alookup] at h
    by_cases hk : k = a
    · rw [if_pos hk] at h
      obtain rfl : w = v := by injection h
      exact ⟨k, List.mem_cons_self _ _⟩
    · rw [if_neg hk] at h
      obtain ⟨k', hm⟩ := ih h
      exact ⟨k', List.mem_cons_of_mem _ hm⟩

/-- Python `str.startswith`, computed on the character lists. -/
def str_startswith (s p : String) : Bool := p.data.isPrefixOf s.data

/-- `simple_hash` of the source: `hash_val = ((hash_val << 5) - hash_val) +
ord(char)` over an arbitrary-precision integer, then `abs`. -/
def simple_hash (text : String) : ℕ :=
  (text.data.foldl (fun hash_val c => ((hash_val * 32) - hash_val) + (c.toNat : Int)) 0).natAbs

/-- Python float `%` for finite operands: `x - m * ⌊x / m⌋` (result has the
sign of the divisor). -/
def pymod (x m : ℚ) : ℚ := x - m * (⌊x / m⌋ : ℤ)

/-- The 384-dimension expansion loop of `create_simple_embedding`, applied
to an already-reduced hash value. -/
def embedding_from_hash (hash_val : ℕ) : List ℚ :=
  (List.range 384).map (fun (i : ℕ) =>
    pymod (((hash_val : ℚ) + (i : ℚ)) * (1 / 100)) 2 - 1)

/-- `create_simple_embedding` of the source: hash the text, reduce modulo
1,000,000, expand to 384 pseudo-random values in `[-1, 1)`. -/
def create_simple_embedding (text : String) : List ℚ :=
  embedding_from_hash (simple_hash text % 1000000)

/-- A paragraph record from a `*_parsed.json` cache file (the extraction
collaborator's output).  `id` and `text` are accessed with `[]` in the
source (required); the rest are read with `.get` and a default. -/
structure Paragraph where
  id : String
  text : String
  page : Option Int
  paragraph_index : Option Int
  word_count : Option Int
  char_count : Option Int
  annotations : List (String × String)
deriving DecidableEq, Repr

/-- A parsed-document cache file. -/
structure ParsedData where
  paragraphs : List Paragraph
  extraction_method : Option String
  filename : Option String
deriving DecidableEq, Repr

/-- `convert_parsed_data_to_rag_documents` of the source. -/
def convert_parsed_data_to_rag_documents (file_id : String) (parsed_data : ParsedData)
    (dataset_name : String) : List RAGDocument :=
  (parsed_data.paragraphs.enum).map (fun (p : ℕ × Paragraph) =>
    let idx := p.1
    let paragraph := p.2
    { id := file_id ++ "_" ++ paragraph.id
      datasetId := file_id
      datasetName := dataset_name
      fullText := paragraph.text
      prompt := paragraph.text
      completion := paragraph.text
      intent := "content"
      category := "paragraph"
      rowIndex := (idx : Int)
      metadata :=
        [("page", .i (paragraph.page.getD 1)),
         ("paragraph_index", .i (paragraph.paragraph_index.getD (idx : Int))),
         ("word_count", .i (paragraph.word_count.getD 0)),
         ("char_count", .i (paragraph.char_count.getD 0)),
         ("annotations", .o paragraph.annotations),
         ("extraction_method", .s (parsed_data.extraction_method.getD "unknown"))] })

/-- An exported dataset as returned by `load_exported_dataset`: each row is
a field-name/value mapping in declaration order. -/
structure ExportedDataset where
  id : String
  name : String
  format : String
  data : List (List (String × String))
  row_count : ℕ
deriving DecidableEq, Repr

/-- `convert_dataset_to_rag_documents` of the source.  A field contributes
iff `value and str(value).strip()` is truthy, i.e. the value is non-empty
and not all whitespace. -/
def convert_dataset_to_rag_documents (dataset : ExportedDataset) : List RAGDocument :=
  (dataset.data.enum).map (fun (p : ℕ × List (String × String)) =>
    let idx := p.1
    let row := p.2
    let kept := row.filter (fun kv => kv.2 != "" && !(kv.2.data.all Char.isWhitespace))
    let text_parts := kept.map (fun kv => kv.1 ++ ": " ++ kv.2)
    let full_text := if text_parts.isEmpty then "Row " ++ toString idx
                     else String.intercalate " | " text_parts
    { id := dataset.id ++ "_row_" ++ toString idx
      datasetId := dataset.id
      datasetName := dataset.name
      fullText := full_text
      prompt := full_text
      completion := full_text
      intent := "data"
      category := "dataset_row"
      rowIndex := (idx : Int)
      metadata :=
        [("row_index", .i (idx : Int)),
         ("dataset_id", .s dataset.id),
         ("dataset_name", .s dataset.name),
         ("format", .s dataset.format)] ++
        kept.map (fun kv => ("field_" ++ kv.1, MetaV.s (kv.2.take 100))) })

/-- The shared per-batch indexing loop (`for doc in rag_documents: if
doc['id'] not in rag_index['embeddings']: ...`), returning the updated
state and the number of newly inserted documents. -/
def indexDocs : RagState → List RAGDocument → RagState × ℕ
  | st, [] => (st, 0)
  | st, doc :: rest =>
    if (alookup doc.id st.embeddings).isSome then
      indexDocs st rest
    else
      let st' := { st with
        embeddings := st.embeddings ++ [(doc.id, create_simple_embedding doc.fullText)],
        documents := st.documents ++ [doc] }
      let r := indexDocs st' rest
      (r.1, r.2 + 1)

/-- `index_document_for_rag` (`POST /rag/index`) after the cache file has
been read: convert, dedup-insert, register the dataset id, bump stats.
Returns the new state and `indexed_count`. -/
def index_document_for_rag (st : RagState) (file_id : String)
    (dataset_name_req : Option String) (parsed_data : ParsedData) (now : String) :
    RagState × ℕ :=
  let dataset_name := dataset_name_req.getD (parsed_data.filename.getD ("Document " ++ file_id))
  let rag_documents := convert_parsed_data_to_rag_documents file_id parsed_data dataset_name
  let r := indexDocs st rag_documents
  let st1 := r.1
  let st2 :=
    if file_id ∈ st1.indexed_datasets then st1
    else { st1 with
      indexed_datasets := insert file_id st1.indexed_datasets,
      stats := { st1.stats with indexed_datasets := st1.stats.indexed_datasets + 1 } }
  ({ st2 with stats := { st2.stats with
        total_documents := st2.stats.total_documents + (r.2 : Int),
        last_updated := some now } }, r.2)

/-- `index_exported_dataset_for_rag` (`POST /rag/index-dataset-file`) after
the exported dataset has been loaded. -/
def index_exported_dataset_for_rag (st : RagState) (file_id : String)
    (dataset_name_req : Option String) (dataset : ExportedDataset) (now : String) :
    RagState × ℕ :=
  let _dataset_name := dataset_name_req.getD dataset.name
  let rag_documents := convert_dataset_to_rag_documents dataset
  let r := indexDocs st rag_documents
  let st1 := r.1
  let st2 :=
    if file_id ∈ st1.indexed_datasets then st1
    else { st1 with
      indexed_datasets := insert file_id st1.indexed_datasets,
      stats := { st1.stats with indexed_datasets := st1.stats.indexed_datasets + 1 } }
  ({ st2 with stats := { st2.stats with
        total_documents := st2.stats.total_documents + (r.2 : Int),
        last_updated := some now } }, r.2)

/-- `remove_rag_dataset` (`DELETE /rag/dataset/{dataset_id}`).  Documents
are removed by exact `datasetId` match, embeddings by the *string prefix*
`dataset_id + "_"`; the returned count is the number of removed embedding
keys. -/
def remove_rag_dataset (st : RagState) (dataset_id : String) (now : String) :
    Except String (RagState × ℕ) :=
  if dataset_id ∈ st.indexed_datasets then
    let documents' := st.documents.filter (fun doc => doc.datasetId != dataset_id)
    let embeddings_to_remove :=
      st.embeddings.filter (fun kv => str_startswith kv.1 (dataset_id ++ "_"))
    let embeddings' :=
      st.embeddings.filter (fun kv => !(str_startswith kv.1 (dataset_id ++ "_")))
    .ok ({ documents := documents'
           embeddings := embeddings'
           indexed_datasets := st.indexed_datasets.erase dataset_id
           stats := { total_documents := (documents'.length : Int)
                      indexed_datasets := st.stats.indexed_datasets - 1
                      last_updated := some now } },
         embeddings_to_remove.length)
  else .error "Dataset not found in RAG index"

/-- The state after `remove_rag_dataset` (unchanged when the call fails
with NotFound). -/
def remove_state (st : RagState) (dataset_id : String) (now : String) : RagState :=
  match remove_rag_dataset st dataset_id now with
  | .ok p => p.1
  | .error _ => st

/-- A search hit as built by `search_rag` (the source stores the similarity
twice, as `similarity` and `relevanceScore`, with the same value). -/
structure SearchResult where
  document : RAGDocument
  similarity : ℚ
deriving DecidableEq

/-- `results.sort(key=lambda x: x['similarity'], reverse=True)`: Python's
sort is stable, so ties keep their enumeration order; `insertionSort` with
this relation computes exactly that stable descending order. -/
def sortBySimilarityDesc (results : List SearchResult) : List SearchResult :=
  results.insertionSort (fun a b => b.similarity ≤ a.similarity)

/-- `search_rag` (`POST /rag/search`).  The cosine similarity on the
float vectors is abstracted as the argument `sim` (its value feeds only the
threshold comparison and the ranking); the query embedding is the concrete
`create_simple_embedding`.  Mirrors the Python truthiness tests: `if
request.datasetIds:` is false for `None` *and* for an empty list, and `if
doc_embedding:` is false for a missing *and* for an empty vector. -/
def search_rag (sim : List ℚ → List ℚ → ℚ) (st : RagState) (query : String)
    (topK : ℕ) (threshold : ℚ) (datasetIds : Option (List String)) : List SearchResult :=
  if st.documents.isEmpty then []
  else
    let query_embedding := create_simple_embedding query
    let search_documents :=
      match datasetIds with
      | some ids =>
        if ids.isEmpty then st.documents
        else st.documents.filter (fun doc => ids.contains doc.datasetId)
      | none => st.documents
    let results := search_documents.filterMap (fun doc =>
      match alookup doc.id st.embeddings with
      | some doc_embedding =>
        if doc_embedding.isEmpty then none
        else
          let similarity := sim query_embedding doc_embedding
          if threshold ≤ similarity then some { document := doc, similarity := similarity }
          else none
      | none => none)
    (sortBySimilarityDesc results).take topK

/-- One entry of the structured context list built by `build_rag_context`. -/
structure ContextEntry where
  source : String
  content : String
  relevanceScore : ℚ
deriving DecidableEq

/-- The response of `build_rag_context`. -/
structure RAGContext where
  prompt : String
  context : List ContextEntry
  hasContext : Bool
  contextCount : ℕ
deriving DecidableEq

/-- Rendering of `(value):.1f` for the relevance percentage.  Python
formats the float with one decimal digit; this renders the rational to one
decimal (rounding to nearest).  No claim inspects this string. -/
def format_1f (q : ℚ) : String :=
  let n : Int := round (q * 10)
  toString (n / 10) ++ "." ++ toString ((n % 10).natAbs)

/-- The per-result context-entry construction of `build_rag_context`:
`doc['metadata']['page']` is a plain subscript, so a document without a
`page` metadata key raises `KeyError`, modelled as the `.error` branch. -/
def buildEntries : List SearchResult → Except String (List ContextEntry)
  | [] => .ok []
  | r :: rest =>
    match alookup "page" r.document.metadata with
    | some page =>
      (buildEntries rest).map (fun tail =>
        { source := r.document.datasetName ++ " (Page " ++ metaToString page ++ ")"
          content := r.document.fullText
          relevanceScore := r.similarity } :: tail)
    | none => .error "KeyError: page"

/-- The full prompt rendered when results exist. -/
def renderFullPrompt (query : String) (context_parts : List ContextEntry) : String :=
  let context_section := String.intercalate "\n" ((context_parts.enum).map
    (fun (p : ℕ × ContextEntry) =>
      "[Context " ++ toString (p.1 + 1) ++ "] (Relevance: " ++
        format_1f (p.2.relevanceScore * 100) ++ "%)\n" ++
      "Source: " ++ p.2.source ++ "\n" ++
      "Content: " ++ p.2.content ++ "\n"))
  "You are a helpful document analysis assistant." ++ "\n\n" ++
    "Retrieved Context:\n" ++ context_section ++ "\n" ++
    "User Query: " ++ query ++ "\n\n" ++
    "Please answer the user's query using the provided context when relevant."

/-- `build_rag_context` (`POST /rag/context`): run the search, then either
return the minimal no-context prompt or assemble one context entry per
result in ranked order.  An uncaught exception inside (the `KeyError` for
a missing `page`) surfaces as the 500 `"Context building failed"` path,
modelled as `.error`. -/
def build_rag_context (sim : List ℚ → List ℚ → ℚ) (st : RagState) (query : String)
    (topK : ℕ) (threshold : ℚ) (datasetIds : Option (List String)) :
    Except String RAGContext :=
  let results := search_rag sim st query topK threshold datasetIds
  if results.isEmpty then
    .ok { prompt := "You are a helpful document analysis assistant." ++ "\n\n" ++
            "User Query: " ++ query
          context := []
          hasContext := false
          contextCount := 0 }
  else
    match buildEntries results with
    | .ok context_parts =>
      .ok { prompt := renderFullPrompt query context_parts
            context := context_parts
            hasContext := true
            contextCount := context_parts.length }
    | .error e => .error e

/-- The response of `index_ebook_dataset` (`POST /rag/index-dataset`). -/
structure BulkResult where
  state : RagState
  dataset_id : String
  total_files_processed : ℕ
  total_documents_indexed : ℕ
  failures : List (String × String)
deriving DecidableEq

/-- The per-file loop of `index_ebook_dataset`, folded left over the cache
files: a source that loads and converts is indexed on the running state; a
source whose load/convert raises is appended to `failed_files` with its
error message and the loop continues. -/
def bulkStep (dataset_name : String) (acc : RagState × ℕ × List (String × String))
    (src : String × Except String ParsedData) : RagState × ℕ × List (String × String) :=
  match src.2 with
  | .ok parsed_data =>
    let rag_documents := convert_parsed_data_to_rag_documents src.1 parsed_data dataset_name
    let r := indexDocs acc.1 rag_documents
    (r.1, acc.2.1 + r.2, acc.2.2)
  | .error e => (acc.1, acc.2.1, acc.2.2 ++ [(src.1, e)])

/-- The body of `index_ebook_dataset` once the cache directory listing is
in hand: truncate by `max_documents` (Python: `if request.max_documents:`,
so `0` is no limit), run the per-file loop, register the synthetic batch
dataset id `bulk_<name>_<epoch>`, bump stats. -/
def bulk_run (st : RagState) (dataset_name : String) (max_documents : Option ℕ)
    (sources : List (String × Except String ParsedData)) (epoch : ℕ) (now : String) :
    BulkResult :=
  let dataset_id := "bulk_" ++ dataset_name ++ "_" ++ toString epoch
  let parsed_files :=
    match max_documents with
    | some m => if m = 0 then sources else sources.take m
    | none => sources
  let folded := parsed_files.foldl (bulkStep dataset_name) (st, 0, [])
  let st1 := folded.1
  let total_indexed := folded.2.1
  let failed_files := folded.2.2
  let st2 :=
    if dataset_id ∈ st1.indexed_datasets then st1
    else { st1 with
      indexed_datasets := insert dataset_id st1.indexed_datasets,
      stats := { st1.stats with indexed_datasets := st1.stats.indexed_datasets + 1 } }
  { state := { st2 with stats := { st2.stats with
        total_documents := st2.stats.total_documents + (total_indexed : Int),
        last_updated := some now } }
    dataset_id := dataset_id
    total_files_processed := parsed_files.length
    total_documents_indexed := total_indexed
    failures := failed_files }

/-- `index_ebook_dataset` (`POST /rag/index-dataset`): 404 when no parsed
documents exist at all, otherwise the total bulk run. -/
def index_ebook_dataset (st : RagState) (dataset_name : String)
    (max_documents : Option ℕ) (sources : List (String × Except String ParsedData))
    (epoch : ℕ) (now : String) : Except String BulkResult :=
  if sources.isEmpty then .error "No parsed documents found in cache."
  else .ok (bulk_run st dataset_name max_documents sources epoch now)

/-- The dictionary serialized by `save_rag_index` (`json.dump` writes it to
`rag_index.json`; the JSON byte encoding is the transport and is modelled
as this structured value). -/
structure SaveData where
  documents : List RAGDocument
  embeddings : List (String × List ℚ)
  indexed_datasets : List String
  stats : RagStats
  saved_at : String
deriving DecidableEq

/-- `save_rag_index`: the in-memory state with the indexed-dataset set
converted to a list (`list(rag_index['indexed_datasets'])`; a Python set
iterates in an unspecified order, modelled as the sorted order). -/
def save_rag_index (st : RagState) (now : String) : SaveData :=
  { documents := st.documents
    embeddings := st.embeddings
    indexed_datasets := st.indexed_datasets.sort (· ≤ ·)
    stats := st.stats
    saved_at := now }

/-- `load_rag_index`: populate a fresh store from the file when present
(`set(save_data.get('indexed_datasets', []))` rebuilds the set); when the
file is absent the store keeps its initial empty value. -/
def load_rag_index (file : Option SaveData) : RagState :=
  match file with
  | none => rag_index_init
  | some save_data =>
    { documents := save_data.documents
      embeddings := save_data.embeddings
      indexed_datasets := save_data.indexed_datasets.toFinset
      stats := save_data.stats }

/-!
Concrete states used by the counterexamples and failing-input evaluations.
Each is reached from the empty store by running the modelled operations
only, so every state below is reachable in the running system.
-/

/-- A one-paragraph parsed file with paragraph id `"x"`. -/
def para_x : Paragraph :=
  { id := "x", text := "alpha", page := none, paragraph_index := none,
    word_count := none, char_count := none, annotations := [] }

/-- A one-paragraph parsed file with paragraph id `"y"`. -/
def para_y : Paragraph :=
  { id := "y", text := "beta", page := none, paragraph_index := none,
    word_count := none, char_count := none, annotations := [] }

/-- Parsed data of an uploaded file with id `"a"`. -/
def parsed_a : ParsedData :=
  { paragraphs := [para_x], extraction_method := none, filename := none }

/-- Parsed data of an uploaded file with id `"a_b"`. -/
def parsed_ab : ParsedData :=
  { paragraphs := [para_y], extraction_method := none, filename := none }

/-- Parsed data with no paragraphs at all. -/
def parsed_empty : ParsedData :=
  { paragraphs := [], extraction_method := none, filename := none }

/-- Store after indexing file `"a"` (one document, id `"a_x"`). -/
def stA : RagState := (index_document_for_rag rag_index_init "a" none parsed_a "t1").1

/-- Store after additionally indexing file `"a_b"` (documents `"a_x"` and
`"a_b_y"`, datasets `"a"` and `"a_b"`). -/
def stAB : RagState := (index_document_for_rag stA "a_b" none parsed_ab "t2").1

/-- Store after `removeDataset("a")` on `stAB`. -/
def stAB_rem : RagState := remove_state stAB "a" "t3"

/-- Store after re-indexing file `"a_b"` on top of `stAB_rem`. -/
def stDup : RagState := (index_document_for_rag stAB_rem "a_b" none parsed_ab "t4").1

/-- Store after indexing a file `"f"` whose parsed data has no paragraphs. -/
def stEmptyIdx : RagState :=
  (index_document_for_rag rag_index_init "f" none parsed_empty "t1").1

/-- An exported tabular dataset with one row and one non-empty field. -/
def ds_one : ExportedDataset :=
  { id := "ds1", name := "DS One", format := "csv",
    data := [[("colA", "valA")]], row_count := 1 }

/-- Store after indexing the exported dataset `ds_one` (one document with
`category = "dataset_row"` and no `page` metadata key). -/
def stRow : RagState :=
  (index_exported_dataset_for_rag rag_index_init "ds1" none ds_one "t1").1

/-- A concrete stand-in for the similarity function: every pair of vectors
scores `1`, so every candidate passes any threshold `≤ 1`. -/
def simOne : List ℚ → List ℚ → ℚ := fun _ _ => 1

/-- C1: `removeDataset` does delete every document of the dataset and the
dataset id itself, but the `removedDocumentCount` it returns is the number
of *embedding keys starting with `dataset_id + "_"`*, which also captures
documents of any other indexed dataset whose identifier extends
`dataset_id + "_"`.  In the reachable store `stAB` (files `"a"` and
`"a_b"` indexed), `removeDataset("a")` returns a removed count of 2 while
`stats.total_documents` only drops from 2 to 1 — refuting the claimed
equality between the returned count and the decrease. -/
theorem c1_remove_count_mismatch :
    stAB.stats.total_documents = 2 ∧
    (remove_rag_dataset stAB "a" "t3").map
        (fun p => (p.2, p.1.stats.total_documents)) = .ok (2, 1) :=
  ⟨rfl, rfl⟩

/-- C2: in `stAB` the document list and the embedding map are in 1:1
correspondence, but after `removeDataset("a")` the document `"a_b_y"` of
dataset `"a_b"` is still stored while its embedding has been deleted (its
key starts with `"a_"`), refuting the claimed preservation of the 1:1
correspondence by `removeDataset`. -/
theorem c2_remove_orphans_foreign_embedding :
    stAB.documents.map (fun d => d.id) = stAB.embeddings.map (fun kv => kv.1) ∧
    stAB_rem.documents.map (fun d => d.id) = ["a_b_y"] ∧
    alookup "a_b_y" stAB_rem.embeddings = none :=
  ⟨rfl, rfl, rfl⟩

/-- C5: after removing dataset `"a"` (which also deleted the embedding of
the still-stored document `"a_b_y"`), re-indexing file `"a_b"` re-inserts
document `"a_b_y"` — the dedup test consults the embeddings map, not the
document list — so the store ends up holding a duplicate id, refuting the
claim that no duplicate id ever appears. -/
theorem c5_duplicate_id_in_store :
    stDup.documents.map (fun d => d.id) = ["a_b_y", "a_b_y"] ∧
    ¬ (stDup.documents.map (fun d => d.id)).Nodup :=
  ⟨rfl, by decide⟩

/-- C3 (counterexample): indexing a file `"f"` whose parsed data contains
no paragraphs still registers `"f"` in the indexed-dataset set although no
document with `datasetId = "f"` (indeed no document at all) is in the
store, refuting the claim that an identifier is added only if some
document was actually inserted. -/
theorem c3_counterexample :
    stEmptyIdx.indexed_datasets = {"f"} ∧ stEmptyIdx.documents = [] :=
  ⟨by decide, rfl⟩

/-- Helper: the per-batch insertion loop never touches the indexed-dataset
set. -/
theorem indexDocs_indexed_datasets :
    ∀ (docs : List RAGDocument) (st : RagState),
      (indexDocs st docs).1.indexed_datasets = st.indexed_datasets := by
  intro docs
  induction docs with
  | nil => intro st; rfl
  | cons doc rest ih =>
    intro st
    by_cases h : (alookup doc.id st.embeddings).isSome
    · simpa only [indexDocs, if_pos h] using ih st
    · simpa only [indexDocs, if_neg h] using ih _

/-- Helper: the bulk per-file loop never touches the indexed-dataset set
either: a failing source changes nothing but the failures list, a
succeeding one only inserts documents and embeddings. -/
theorem bulkFold_indexed_datasets (dataset_name : String) :
    ∀ (sources : List (String × Except String ParsedData)) (st : RagState)
      (n : ℕ) (fs : List (String × String)),
      ((sources.foldl (bulkStep dataset_name) (st, n, fs)).1).indexed_datasets
        = st.indexed_datasets := by
  intro sources
  induction sources with
  | nil => intro st n fs; rfl
  | cons src rest ih =>
    intro st n fs
    obtain ⟨file_id, data⟩ := src
    cases data with
    | ok parsed_data =>
      rw [List.foldl_cons]
      simp only [bulkStep]
      rw [ih]
      exact indexDocs_indexed_datasets _ st
    | error e =>
      rw [List.foldl_cons]
      simp only [bulkStep]
      exact ih st n (fs ++ [(file_id, e)])

/-- C3 (amended): exactly how each operation changes the indexed-dataset
set.  A single-file indexing request and an exported-dataset indexing
request each add exactly the request's identifier, unconditionally, even
when no document was inserted; a bulk run adds exactly the synthetic batch
identifier `bulk_<name>_<epoch>` and nothing else — in particular not the
per-file dataset identifiers of the documents it inserts — so no indexing
batch ever removes an identifier; `removeDataset` removes exactly its
argument.  Identifiers therefore leave the set only through
`removeDataset`, and the set does not in general equal the set of
`datasetId`s of stored documents. -/
theorem c3_indexed_set_behavior :
    (∀ st file_id nm parsed now,
        (index_document_for_rag st file_id nm parsed now).1.indexed_datasets
          = insert file_id st.indexed_datasets) ∧
    (∀ st file_id nm dataset now,
        (index_exported_dataset_for_rag st file_id nm dataset now).1.indexed_datasets
          = insert file_id st.indexed_datasets) ∧
    (∀ st name mx sources epoch now,
        (bulk_run st name mx sources epoch now).state.indexed_datasets
          = insert ("bulk_" ++ name ++ "_" ++ toString epoch) st.indexed_datasets) ∧
    (∀ st d now,
        (remove_state st d now).indexed_datasets = st.indexed_datasets.erase d) := by
  refine ⟨?_, ?_, ?_, ?_⟩
  · intro st file_id nm parsed now
    unfold index_document_for_rag
    by_cases h :
        file_id ∈ (indexDocs st (convert_parsed_data_to_rag_documents file_id parsed
          (nm.getD (parsed.filename.getD ("Document " ++ file_id))))).1.indexed_datasets
    · simp only [if_pos h]
      rw [indexDocs_indexed_datasets] at h ⊢
      exact (Finset.insert_eq_self.mpr h).symm
    · simp only [if_neg h]
      rw [indexDocs_indexed_datasets]
  · intro st file_id nm dataset now
    unfold index_exported_dataset_for_rag
    by_cases h :
        file_id ∈ (indexDocs st
          (convert_dataset_to_rag_documents dataset)).1.indexed_datasets
    · simp only [if_pos h]
      rw [indexDocs_indexed_datasets] at h ⊢
      exact (Finset.insert_eq_self.mpr h).symm
    · simp only [if_neg h]
      rw [indexDocs_indexed_datasets]
  · intro st name mx sources epoch now
    unfold bulk_run
    by_cases h :
        ("bulk_" ++ name ++ "_" ++ toString epoch) ∈
          ((match mx with
            | some m => if m = 0 then sources else sources.take m
            | none => sources).foldl (bulkStep name) (st, 0, [])).1.indexed_datasets
    · simp only [if_pos h]
      rw [bulkFold_indexed_datasets] at h ⊢
      exact (Finset.insert_eq_self.mpr h).symm
    · simp only [if_neg h]
      rw [bulkFold_indexed_datasets]
  · intro st d now
    unfold remove_state remove_rag_dataset
    by_cases h : d ∈ st.indexed_datasets
    · simp only [if_pos h]
    · simp only [if_neg h]
      exact (Finset.erase_eq_self.mpr h).symm

/-- C6: context assembly crashes on tabular-row documents.  The store
`stRow` holds one indexed document converted from an exported dataset; its
metadata has no `page` key (only `row_index`, `dataset_id`,
`dataset_name`, `format` and `field_*` entries), so
`doc['metadata']['page']` raises `KeyError` and `build_rag_context`
answers with the 500 "Context building failed" error instead of a context
entry, refuting the claim for tabular-row-derived documents. -/
theorem c6_tabular_context_error :
    build_rag_context simOne stRow "what is colA" 5 0 none
      = .error "KeyError: page" :=
  rfl

/-- The search pipeline exactly as the claim words it: restrict to the
requested datasets *whenever the list is given*, skip documents without a
stored vector, keep scores `≥ threshold`, stable-sort descending, take the
first `topK`.  Used only to state the original claim. -/
def search_spec_strict (sim : List ℚ → List ℚ → ℚ) (st : RagState) (query : String)
    (topK : ℕ) (threshold : ℚ) (datasetIds : Option (List String)) : List SearchResult :=
  let query_embedding := create_simple_embedding query
  let restricted : List RAGDocument :=
    match datasetIds with
    | some ids => st.documents.filter (fun doc => ids.contains doc.datasetId)
    | none => st.documents
  let withVectors : List (RAGDocument × List ℚ) := restricted.filterMap (fun doc =>
    (alookup doc.id st.embeddings).map (fun v => (doc, v)))
  let kept := withVectors.filter (fun p => decide (threshold ≤ sim query_embedding p.2))
  let ranked := sortBySimilarityDesc (kept.map (fun p =>
    ({ document := p.1, similarity := sim query_embedding p.2 } : SearchResult)))
  ranked.take topK

/-- The search pipeline of the amended claim: identical to
`search_spec_strict` except that an *empty* `datasetIds` list imposes no
restriction (the source tests the list for truthiness, not for
presence). -/
def search_spec (sim : List ℚ → List ℚ → ℚ) (st : RagState) (query : String)
    (topK : ℕ) (threshold : ℚ) (datasetIds : Option (List String)) : List SearchResult :=
  let query_embedding := create_simple_embedding query
  let restricted : List RAGDocument :=
    match datasetIds with
    | some ids =>
      if ids.isEmpty then st.documents
      else st.documents.filter (fun doc => ids.contains doc.datasetId)
    | none => st.documents
  let withVectors : List (RAGDocument × List ℚ) := restricted.filterMap (fun doc =>
    (alookup doc.id st.embeddings).map (fun v => (doc, v)))
  let kept := withVectors.filter (fun p => decide (threshold ≤ sim query_embedding p.2))
  let ranked := sortBySimilarityDesc (kept.map (fun p =>
    ({ document := p.1, similarity := sim query_embedding p.2 } : SearchResult)))
  ranked.take topK

/-- Helper: the fused candidate loop of `search_rag` computes the staged
lookup/filter/map pipeline of the specification, provided every stored
vector is non-empty (as every vector produced by the embedding scheme
is). -/
theorem search_pipeline_fused_eq (sim : List ℚ → List ℚ → ℚ) (qv : List ℚ) (t : ℚ)
    (emb : List (String × List ℚ)) (hvec : ∀ kv ∈ emb, kv.2 ≠ []) :
    ∀ docs : List RAGDocument,
      docs.filterMap (fun (doc : RAGDocument) =>
        match alookup doc.id emb with
        | some doc_embedding =>
          if doc_embedding.isEmpty then none
          else
            if t ≤ sim qv doc_embedding then
              some ({ document := doc, similarity := sim qv doc_embedding } : SearchResult)
            else none
        | none => none)
      = ((docs.filterMap (fun (doc : RAGDocument) =>
            (alookup doc.id emb).map (fun v => (doc, v)))).filter
          (fun p => decide (t ≤ sim qv p.2))).map
          (fun p => ({ document := p.1, similarity := sim qv p.2 } : SearchResult)) := by
  intro docs
  induction docs with
  | nil => rfl
  | cons doc rest ih =>
    rw [List.filterMap_cons, List.filterMap_cons]
    cases halk : alookup doc.id emb with
    | none => simpa using ih
    | some v =>
      have hv : v ≠ [] := by
        obtain ⟨k, hm⟩ := alookup_mem halk
        exact hvec (k, v) hm
      have hvE : v.isEmpty = false := by
        cases v with
        | nil => exact absurd rfl hv
        | cons a l => rfl
      simp only [hvE, Bool.false_eq_true, if_false, Option.map_some']
      by_cases ht : t ≤ sim qv v
      · simp only [if_pos ht, List.filter_cons, decide_eq_true ht, if_true,
          List.map_cons, ih]
      · simp only [if_neg ht, List.filter_cons, decide_eq_false ht,
          Bool.false_eq_true, if_false, ih]

/-- C4 (amended): `search_rag` computes exactly the claimed pipeline for
every store whose stored vectors are non-empty (every vector the embedding
scheme produces has 384 entries), with the claim's dataset restriction
read as the source reads it: a non-empty `datasetIds` restricts, an empty
list (like an absent one) does not. -/
theorem c4_search_matches_spec (sim : List ℚ → List ℚ → ℚ) (st : RagState)
    (query : String) (topK : ℕ) (threshold : ℚ) (datasetIds : Option (List String))
    (hvec : ∀ kv ∈ st.embeddings, kv.2 ≠ []) :
    search_rag sim st query topK threshold datasetIds
      = search_spec sim st query topK threshold datasetIds := by
  simp only [search_rag, search_spec]
  by_cases hemp : st.documents.isEmpty = true
  · have hnil : st.documents = [] := by
      cases hl : st.documents with
      | nil => rfl
      | cons d ds => rw [hl] at hemp; exact absurd hemp (by simp)
    simp only [if_pos hemp, hnil]
    cases datasetIds with
    | none => simp [sortBySimilarityDesc]
    | some ids =>
      by_cases hids : ids.isEmpty <;> simp [hids, sortBySimilarityDesc]
  · simp only [if_neg hemp]
    rw [search_pipeline_fused_eq sim (create_simple_embedding query) threshold
      st.embeddings hvec]

/-- A minimal stored document used by the search counterexample. -/
def doc_x1 : RAGDocument :=
  { id := "x1", datasetId := "d1", datasetName := "D1", fullText := "hello",
    prompt := "hello", completion := "hello", intent := "content",
    category := "paragraph", rowIndex := 0, metadata := [("page", .i 1)] }

/-- A store holding `doc_x1` together with a stored (non-empty) vector. -/
def stOne : RagState :=
  { documents := [doc_x1]
    embeddings := [("x1", [1])]
    indexed_datasets := {"d1"}
    stats := { total_documents := 1, indexed_datasets := 1, last_updated := none } }

/-- C4 (counterexample): with `datasetIds` given as the *empty* list the
source treats the restriction as absent (Python truthiness) and returns
the match, while the claim's pipeline restricts to the empty dataset set
and returns nothing. -/
theorem c4_counterexample :
    search_rag simOne stOne "q" 5 0 (some [])
      ≠ search_spec_strict simOne stOne "q" 5 0 (some []) := by
  decide

/-- Witness for `c4_search_matches_spec` at a concrete store. -/
theorem c4_search_witness :
    search_rag simOne stOne "q" 3 0 none = search_spec simOne stOne "q" 3 0 none :=
  c4_search_matches_spec simOne stOne "q" 3 0 none (by decide)

/-- The failures list as the claim describes it: one entry per failing
source, carrying its identifier and error message, in order. -/
def bulkFailuresSpec (sources : List (String × Except String ParsedData)) :
    List (String × String) :=
  sources.filterMap (fun src =>
    match src.2 with
    | .error e => some (src.1, e)
    | .ok _ => none)

/-- The succeeding sources, in order. -/
def bulkSuccessesSpec (sources : List (String × Except String ParsedData)) :
    List (String × ParsedData) :=
  sources.filterMap (fun src =>
    match src.2 with
    | .ok parsed_data => some (src.1, parsed_data)
    | .error _ => none)

/-- Reference run over the succeeding sources only: convert and insert each
batch on the running state, counting insertions. -/
def indexSuccessRun (dataset_name : String) :
    RagState → List (String × ParsedData) → RagState × ℕ
  | st, [] => (st, 0)
  | st, (file_id, parsed_data) :: rest =>
    let docs := convert_parsed_data_to_rag_documents file_id parsed_data dataset_name
    let r := indexDocs st docs
    let r2 := indexSuccessRun dataset_name r.1 rest
    (r2.1, r.2 + r2.2)

theorem bulkSuccessesSpec_cons_ok (file_id : String) (parsed_data : ParsedData)
    (rest : List (String × Except String ParsedData)) :
    bulkSuccessesSpec ((file_id, Except.ok parsed_data) :: rest)
      = (file_id, parsed_data) :: bulkSuccessesSpec rest := rfl

theorem bulkSuccessesSpec_cons_err (file_id e : String)
    (rest : List (String × Except String ParsedData)) :
    bulkSuccessesSpec ((file_id, Except.error e) :: rest) = bulkSuccessesSpec rest := rfl

theorem bulkFailuresSpec_cons_ok (file_id : String) (parsed_data : ParsedData)
    (rest : List (String × Except String ParsedData)) :
    bulkFailuresSpec ((file_id, Except.ok parsed_data) :: rest) = bulkFailuresSpec rest := rfl

theorem bulkFailuresSpec_cons_err (file_id e : String)
    (rest : List (String × Except String ParsedData)) :
    bulkFailuresSpec ((file_id, Except.error e) :: rest)
      = (file_id, e) :: bulkFailuresSpec rest := rfl

/-- Helper: the bulk fold equals the reference run over the succeeding
sources, with the failing sources appended to the failures accumulator. -/
theorem bulk_fold_spec (dataset_name : String) :
    ∀ (sources : List (String × Except String ParsedData)) (st : RagState)
      (n0 : ℕ) (fs0 : List (String × String)),
      sources.foldl (bulkStep dataset_name) (st, n0, fs0)
        = ((indexSuccessRun dataset_name st (bulkSuccessesSpec sources)).1,
           n0 + (indexSuccessRun dataset_name st (bulkSuccessesSpec sources)).2,
           fs0 ++ bulkFailuresSpec sources) := by
  intro sources
  induction sources with
  | nil =>
    intro st n0 fs0
    simp [bulkSuccessesSpec, bulkFailuresSpec, indexSuccessRun]
  | cons src rest ih =>
    intro st n0 fs0
    obtain ⟨file_id, data⟩ := src
    cases data with
    | ok parsed_data =>
      rw [List.foldl_cons]
      simp only [bulkStep]
      rw [ih, bulkSuccessesSpec_cons_ok, bulkFailuresSpec_cons_ok]
      simp only [indexSuccessRun, Prod.mk.injEq]
      exact ⟨trivial, by omega, trivial⟩
    | error e =>
      rw [List.foldl_cons]
      simp only [bulkStep]
      rw [ih, bulkSuccessesSpec_cons_err, bulkFailuresSpec_cons_err]
      simp only [Prod.mk.injEq]
      exact ⟨trivial, trivial, by simp⟩

/-- C7: when one source in a bulk batch fails to load or convert, the
operation still completes and reports success: `total_files_processed`
counts every attempted source including the failing one, the failures list
records exactly the failing sources with their identifiers and error
messages (hence is non-empty), and `total_documents_indexed` together with
the stored documents is exactly what indexing the succeeding sources alone
produces. -/
theorem c7_bulk_partial_failure (st : RagState) (dataset_name : String)
    (pre post : List (String × Except String ParsedData)) (file_id err : String)
    (sources : List (String × Except String ParsedData))
    (hs : sources = pre ++ (file_id, Except.error err) :: post)
    (epoch : ℕ) (now : String) :
    (bulk_run st dataset_name none sources epoch now).total_files_processed
        = sources.length ∧
    (bulk_run st dataset_name none sources epoch now).failures
        = bulkFailuresSpec sources ∧
    (file_id, err) ∈ (bulk_run st dataset_name none sources epoch now).failures ∧
    (bulk_run st dataset_name none sources epoch now).failures ≠ [] ∧
    (bulk_run st dataset_name none sources epoch now).total_documents_indexed
        = (indexSuccessRun dataset_name st (bulkSuccessesSpec sources)).2 ∧
    (bulk_run st dataset_name none sources epoch now).state.documents
        = (indexSuccessRun dataset_name st (bulkSuccessesSpec sources)).1.documents ∧
    index_ebook_dataset st dataset_name none sources epoch now
        = .ok (bulk_run st dataset_name none sources epoch now) := by
  have hfold := bulk_fold_spec dataset_name sources st 0 []
  have hfail : (bulk_run st dataset_name none sources epoch now).failures
      = bulkFailuresSpec sources := by
    simp only [bulk_run]
    rw [hfold]
    simp
  have hmem : (file_id, err) ∈ bulkFailuresSpec sources := by
    subst hs
    refine List.mem_filterMap.mpr ⟨(file_id, Except.error err), ?_, rfl⟩
    exact List.mem_append_right _ (List.mem_cons_self _ _)
  refine ⟨rfl, hfail, ?_, ?_, ?_, ?_, ?_⟩
  · rw [hfail]; exact hmem
  · rw [hfail]; exact List.ne_nil_of_mem hmem
  · simp only [bulk_run]
    rw [hfold]
    simp
  · simp only [bulk_run]
    rw [hfold]
    by_cases hreg :
        ("bulk_" ++ dataset_name ++ "_" ++ toString epoch) ∈
          (indexSuccessRun dataset_name st (bulkSuccessesSpec sources)).1.indexed_datasets
    · simp only [if_pos hreg]
    · simp only [if_neg hreg]
  · have hne : sources.isEmpty = false := by
      subst hs
      cases pre <;> rfl
    simp only [index_ebook_dataset, hne, Bool.false_eq_true, if_false]

/-- A concrete bulk batch: one corrupt source followed by one good one. -/
def c7_sources : List (String × Except String ParsedData) :=
  [("bad", Except.error "boom"), ("good", Except.ok parsed_a)]

/-- Witness for `c7_bulk_partial_failure` at the concrete batch
`c7_sources`. -/
theorem c7_bulk_witness :
    (bulk_run rag_index_init "col" none c7_sources 0 "t").total_files_processed
        = c7_sources.length ∧
    (bulk_run rag_index_init "col" none c7_sources 0 "t").failures
        = bulkFailuresSpec c7_sources ∧
    ("bad", "boom") ∈ (bulk_run rag_index_init "col" none c7_sources 0 "t").failures ∧
    (bulk_run rag_index_init "col" none c7_sources 0 "t").failures ≠ [] ∧
    (bulk_run rag_index_init "col" none c7_sources 0 "t").total_documents_indexed
        = (indexSuccessRun "col" rag_index_init (bulkSuccessesSpec c7_sources)).2 ∧
    (bulk_run rag_index_init "col" none c7_sources 0 "t").state.documents
        = (indexSuccessRun "col" rag_index_init (bulkSuccessesSpec c7_sources)).1.documents ∧
    index_ebook_dataset rag_index_init "col" none c7_sources 0 "t"
        = .ok (bulk_run rag_index_init "col" none c7_sources 0 "t") :=
  c7_bulk_partial_failure rag_index_init "col" [] [("good", Except.ok parsed_a)]
    "bad" "boom" c7_sources rfl 0 "t"

/-- C8: saving the index and loading the saved data into a fresh store
reproduces the state exactly — the same document list, the same embedding
vector for every id, the same indexed-dataset set (serialized as a list
and rebuilt as a set), and the same statistics. -/
theorem c8_save_load_roundtrip (st : RagState) (now : String) :
    load_rag_index (some (save_rag_index st now)) = st := by
  cases st with
  | mk docs emb ds stats =>
    simp [load_rag_index, save_rag_index, Finset.sort_toFinset]

/-- Helper: Python float `% 2` always lands in `[0, 2)`. -/
theorem pymod_two_bounds (x : ℚ) : 0 ≤ pymod x 2 ∧ pymod x 2 < 2 := by
  unfold pymod
  constructor
  · have h := Int.floor_le (x / 2)
    linarith
  · have h := Int.lt_floor_add_one (x / 2)
    push_cast at h
    linarith

/-- C9: the embedding function returns exactly 384 values, each in
`[-1, 1]` (in fact in `[-1, 1)`), and — being a pure function of its
input — it is deterministic: identical inputs yield identical vectors. -/
theorem c9_embedding_contract (text : String) :
    (create_simple_embedding text).length = 384 ∧
    (create_simple_embedding text).all (fun v => decide (-1 ≤ v ∧ v ≤ 1)) = true ∧
    create_simple_embedding text = create_simple_embedding text := by
  refine ⟨?_, ?_, rfl⟩
  · simp only [create_simple_embedding, embedding_from_hash, List.length_map,
      List.length_range]
  · rw [List.all_eq_true]
    intro v hv
    simp only [create_simple_embedding, embedding_from_hash, List.mem_map,
      List.mem_range] at hv
    obtain ⟨i, hi, rfl⟩ := hv
    have hb := pymod_two_bounds
      ((((simple_hash text % 1000000 : ℕ) : ℚ) + (i : ℚ)) * (1 / 100))
    rw [decide_eq_true_eq]
    exact ⟨by linarith [hb.1], by linarith [hb.2]⟩

/-- C10: the embedding factors through `simple_hash(text) % 1000000`: texts
with congruent hashes receive identical vectors, so at most 1,000,000
distinct vectors exist, and concrete distinct texts with exactly equal
embeddings exist (`"a"` and the five-character string with code points
1, 2, 17, 21, 6, whose hashes are 97 and 1,000,097). -/
theorem c10_embedding_factors :
    (∀ s t : String, simple_hash s % 1000000 = simple_hash t % 1000000 →
        create_simple_embedding s = create_simple_embedding t) ∧
    (∃ S : Finset (List ℚ), S.card ≤ 1000000 ∧
        ∀ t : String, create_simple_embedding t ∈ S) ∧
    (∃ s t : String, s ≠ t ∧ create_simple_embedding s = create_simple_embedding t) := by
  have hfac : ∀ s t : String, simple_hash s % 1000000 = simple_hash t % 1000000 →
      create_simple_embedding s = create_simple_embedding t := by
    intro s t h
    unfold create_simple_embedding
    rw [h]
  refine ⟨hfac, ⟨(Finset.range 1000000).image embedding_from_hash, ?_, ?_⟩, ?_⟩
  · calc ((Finset.range 1000000).image embedding_from_hash).card
        ≤ (Finset.range 1000000).card := Finset.card_image_le
      _ = 1000000 := Finset.card_range _
  · intro t
    refine Finset.mem_image.mpr ⟨simple_hash t % 1000000, ?_, rfl⟩
    exact Finset.mem_range.mpr (Nat.mod_lt _ (by norm_num))
  · exact ⟨"a", "\x01\x02\x11\x15\x06", by decide, hfac _ _ (by decide)⟩

/-- Witness for `c10_embedding_factors`: the concrete hash collision. -/
theorem c10_collision_witness :
    create_simple_embedding "a" = create_simple_embedding "\x01\x02\x11\x15\x06" :=
  c10_embedding_factors.1 "a" "\x01\x02\x11\x15\x06" (by decide)
